import Mathlib

/-!
Verification development for the Fitness Booking API.

Shallow embedding of the booking service (`app/services/booking.py`), the
request schemas (`app/schemas/booking.py`), the ORM models
(`app/models/booking.py`) and the timezone utilities
(`app/utils/timezone_utils.py`).

Machine conventions:
* database integers are `Nat` (primary keys) or `Int` (slot counters, so that
  the invariant `0 ≤ available_slots` is a proved property, not a typing
  artifact);
* timestamps stored in the reference timezone are `Int` instants;
* Python `datetime` objects (which may be naive or timezone-aware) are
  modelled by `PyDatetime` below, with a wall-clock value and an optional
  UTC offset;
* the pytz timezone database (an external collaborator) is a parameter of
  type `String → Option Int` mapping an IANA identifier to its offset;
* fallible Python code returns `Except`;
* the random source `uuid.uuid4().hex` is a `String` parameter, and the
  database-assigned primary key of a fresh row is a `Nat` parameter;
* an unexpected exception in the write phase of `create_booking` is modelled
  by an `Option String` parameter carrying `str(e)` of the raised exception.
-/

deriving instance DecidableEq for Except

/-! ## Python string primitives used by the schemas and the service -/

/-- The whitespace set of Python `str.strip()`. -/
def pyIsSpace (c : Char) : Bool :=
  c = ' ' || c = '\t' || c = '\n' || c = '\r' || c = '\x0b' || c = '\x0c'

/-- Python `s.strip()`: drop surrounding whitespace. -/
def pyStrip (s : String) : String :=
  String.mk (((s.data.dropWhile pyIsSpace).reverse.dropWhile pyIsSpace).reverse)

/-- Helper for `pyTitle`: the Boolean argument records whether the previous
character was alphabetic (cased). -/
def pyTitleAux : Bool → List Char → List Char
  | _, [] => []
  | prevCased, c :: cs =>
    if c.isAlpha then
      (if prevCased then c.toLower else c.toUpper) :: pyTitleAux true cs
    else
      c :: pyTitleAux false cs

/-- Python `s.title()` (ASCII): uppercase the first character of each
alphabetic run, lowercase the rest. -/
def pyTitle (s : String) : String :=
  String.mk (pyTitleAux false s.data)

/-- Python `s.upper()` (ASCII). -/
def pyUpper (s : String) : String :=
  String.mk (s.data.map Char.toUpper)

/-- Python `s[:n]`. -/
def pyTake (n : Nat) (s : String) : String :=
  String.mk (s.data.take n)

/-! ## Hexadecimal characters, for the booking reference format -/

/-- Lowercase hexadecimal digit, as produced by `uuid.uuid4().hex`. -/
def isLowerHexDigit (c : Char) : Bool :=
  c == '0' || c == '1' || c == '2' || c == '3' || c == '4' || c == '5' ||
  c == '6' || c == '7' || c == '8' || c == '9' || c == 'a' || c == 'b' ||
  c == 'c' || c == 'd' || c == 'e' || c == 'f'

/-- Uppercase hexadecimal character. -/
def isUpperHexChar (c : Char) : Bool :=
  c == '0' || c == '1' || c == '2' || c == '3' || c == '4' || c == '5' ||
  c == '6' || c == '7' || c == '8' || c == '9' || c == 'A' || c == 'B' ||
  c == 'C' || c == 'D' || c == 'E' || c == 'F'

/-- The booking-reference format of the spec: the prefix `FB` followed by
exactly 8 uppercase hexadecimal characters. -/
def validReference (s : String) : Bool :=
  match s.data with
  | 'F' :: 'B' :: rest => rest.length == 8 && rest.all isUpperHexChar
  | _ => false

/-! ## Timezone utilities (`app/utils/timezone_utils.py`) -/

/-- A Python `datetime`: a wall-clock value together with an optional UTC
offset (`tzoff = none` models a naive datetime). -/
structure PyDatetime where
  wall : Int
  tzoff : Option Int
deriving DecidableEq, Repr

/-- The instant denoted by a (timezone-aware) datetime. -/
def PyDatetime.instant (d : PyDatetime) : Int :=
  d.wall - d.tzoff.getD 0

/-- Error raised by `pytz.timezone` on an unknown identifier
(`UnknownTimeZoneError`, the spec's `InvalidTimezone`). -/
inductive TZError
  | InvalidTimezone (tz : String)
deriving DecidableEq, Repr

/-- `TimezoneManager.convert_timezone`, first branch: a naive datetime is
localized to the reference timezone (`self.default_tz.localize(dt)`, which
keeps the wall clock and attaches the reference offset). -/
def localize_default (default_off : Int) (dt : PyDatetime) : PyDatetime :=
  match dt.tzoff with
  | none => { wall := dt.wall, tzoff := some default_off }
  | some _ => dt

/-- `TimezoneManager.convert_timezone(dt, target_timezone)`: localize a naive
input to the reference timezone, look up the target identifier in the
timezone database (raising on an unknown identifier), then `astimezone`,
which preserves the instant and re-expresses it with the target offset. -/
def convert_timezone (tzdb : String → Option Int) (default_off : Int)
    (dt : PyDatetime) (target_timezone : String) : Except TZError PyDatetime :=
  let dt' := localize_default default_off dt
  match tzdb target_timezone with
  | none => .error (.InvalidTimezone target_timezone)
  | some off => .ok { wall := dt'.instant + off, tzoff := some off }

/-! ## Data model (`app/models/booking.py`) -/

/-- The `fitness_classes` row. `class_datetime` is the stored start timestamp
in the reference timezone, as an `Int` instant. -/
structure FitnessClass where
  id : Nat
  name : String
  description : Option String
  instructor : String
  class_datetime : Int
  duration_minutes : Int
  max_slots : Int
  available_slots : Int
  is_active : Bool
  created_at : Int
deriving DecidableEq, Repr

/-- `FitnessClass.booked_slots`: `max_slots - available_slots`. -/
def FitnessClass.booked_slots (c : FitnessClass) : Int :=
  c.max_slots - c.available_slots

/-- `FitnessClass.is_fully_booked`: `available_slots <= 0`. -/
def FitnessClass.is_fully_booked (c : FitnessClass) : Bool :=
  c.available_slots ≤ 0

/-- `FitnessClass.is_past`: `class_datetime < datetime.now(default_tz)`; the
current time in the reference timezone is passed explicitly. -/
def FitnessClass.is_past (c : FitnessClass) (now : Int) : Bool :=
  c.class_datetime < now

/-- The `bookings` row. -/
structure Booking where
  id : Nat
  class_id : Nat
  client_name : String
  client_email : String
  booking_status : String
  booking_reference : String
  notes : Option String
  created_at : Int
deriving DecidableEq, Repr

/-- The persistent store: the two relations. -/
structure DB where
  classes : List FitnessClass
  bookings : List Booking
deriving DecidableEq, Repr

/-! ## Domain errors (`app/utils/exceptions.py`)

Each carries the message and the structured detail payload built at the
raise site in `app/services/booking.py`. -/

inductive BookingError
  | ClassNotFound (message : String) (class_id : Nat)
  | NoSlotsAvailable (message : String) (class_id : Nat) (available_slots : Int)
  | DuplicateBooking (message : String) (existing_booking_id : Nat)
  | InvalidBookingData (message : String)
deriving DecidableEq, Repr

/-- The validated booking request (`BookingCreate` after pydantic
validation); `client_name` here is the normalized value. `client_email` is a
syntactically valid email address, validated by `EmailStr` (an external
collaborator, not modelled). -/
structure BookingCreate where
  class_id : Nat
  client_name : String
  client_email : String
  notes : Option String
deriving DecidableEq, Repr

/-! ## Booking service (`app/services/booking.py`) -/

/-- `BookingService.get_class_by_id`: first active class with the requested
id (`query(FitnessClass).filter(id == class_id, is_active == True).first()`),
raising `ClassNotFoundException` when there is none. -/
def get_class_by_id (db : DB) (class_id : Nat) : Except BookingError FitnessClass :=
  match db.classes.find? (fun c => c.id == class_id && c.is_active) with
  | some fc => .ok fc
  | none => .error (.ClassNotFound
      ("Class with ID " ++ Nat.repr class_id ++ " not found or inactive") class_id)

/-- The duplicate-booking query of `create_booking`: first booking with the
same class id, the same client email and `booking_status == "confirmed"`. -/
def find_duplicate (db : DB) (class_id : Nat) (client_email : String) : Option Booking :=
  db.bookings.find? (fun b =>
    b.class_id == class_id && b.client_email == client_email &&
    b.booking_status == "confirmed")

/-- Replace the first element satisfying `p` by its image under `f` (the ORM
mutation `fitness_class.available_slots -= 1` applied to the row that
`get_class_by_id` returned). -/
def updateFirst (p : α → Bool) (f : α → α) : List α → List α
  | [] => []
  | x :: xs => if p x then f x :: xs else x :: updateFirst p f xs

/-- `BookingService._generate_booking_reference`:
`f"FB{uuid.uuid4().hex[:8].upper()}"`; the 32 lowercase hexadecimal
characters of `uuid4().hex` are the `uuid_hex` parameter. -/
def generate_booking_reference (uuid_hex : String) : String :=
  "FB" ++ pyUpper (pyTake 8 uuid_hex)

/-- The `Booking` row constructed by `create_booking` on the success path:
`status = confirmed`, the generated reference, and the database-assigned
primary key and creation timestamp. -/
def newBooking (bd : BookingCreate) (now : Int) (uuid_hex : String) (new_id : Nat) : Booking :=
  { id := new_id
    class_id := bd.class_id
    client_name := bd.client_name
    client_email := bd.client_email
    booking_status := "confirmed"
    booking_reference := generate_booking_reference uuid_hex
    notes := bd.notes
    created_at := now }

/-- `BookingService.create_booking`. The four precondition checks run in
source order (existence, timing, capacity, duplicate), each raising its
domain error; every raise is followed by `self.db.rollback()`, so the second
component of the result (the post state) is the unchanged `db` on every
error path. `commit_error = some msg` models an unexpected exception with
text `msg` raised during the write phase (`add`/`commit`/`refresh`): the
code rolls back and re-raises
`InvalidBookingDataException(f"Failed to create booking: {str(e)}")`.
On success the new row is appended and the fetched class row's
`available_slots` is decremented by one. -/
def create_booking (db : DB) (bd : BookingCreate) (now : Int)
    (uuid_hex : String) (new_id : Nat) (commit_error : Option String) :
    Except BookingError Booking × DB :=
  match get_class_by_id db bd.class_id with
  | .error e => (.error e, db)
  | .ok fc =>
    if fc.class_datetime < now then
      (.error (.InvalidBookingData "Cannot book a class that has already occurred"), db)
    else if fc.available_slots ≤ 0 then
      (.error (.NoSlotsAvailable
        ("No available slots for class \x27" ++ fc.name ++ "\x27")
        bd.class_id fc.available_slots), db)
    else
      match find_duplicate db bd.class_id bd.client_email with
      | some existing =>
        (.error (.DuplicateBooking
          ("Client " ++ bd.client_email ++ " already has a booking for this class")
          existing.id), db)
      | none =>
        match commit_error with
        | some msg =>
          (.error (.InvalidBookingData ("Failed to create booking: " ++ msg)), db)
        | none =>
          let nb : Booking := newBooking bd now uuid_hex new_id
          (.ok nb,
            { classes := updateFirst
                (fun c => c.id == bd.class_id && c.is_active)
                (fun c => { c with available_slots := c.available_slots - 1 })
                db.classes
              bookings := db.bookings ++ [nb] })

/-! ## Request schema validation (`app/schemas/booking.py`) -/

/-- A pydantic validation failure: a `Field` constraint violation or a
`ValueError` raised by a custom validator. Either one is reported by the
framework as an HTTP 422 schema-validation error, never as a domain
exception. -/
inductive SchemaError
  | lengthViolation (field : String)
  | geViolation (field : String)
  | valueError (msg : String)
deriving DecidableEq, Repr

/-- `BookingCreate.validate_client_name`: reject a name that is empty after
stripping (`ValueError`), otherwise store `v.strip().title()`. -/
def validate_client_name (v : String) : Except String String :=
  if pyStrip v = "" then .error "Client name cannot be empty"
  else .ok (pyTitle (pyStrip v))

/-- The full pydantic pipeline for the `client_name` field: the `Field`
constraints `min_length=2, max_length=100` run on the raw input first, then
the custom validator. -/
def validate_client_name_field (v : String) : Except SchemaError String :=
  if v.length < 2 then .error (.lengthViolation "client_name")
  else if 100 < v.length then .error (.lengthViolation "client_name")
  else
    match validate_client_name v with
    | .error m => .error (.valueError m)
    | .ok s => .ok s

/-- Pydantic validation of the `BookingCreate` request body, fields in
declaration order: `class_id` (`ge=1`), `client_name` (constraints plus
custom validator), `client_email` (`EmailStr`, external collaborator, not
modelled), `notes` (`max_length=500`). -/
def validate_booking_create (class_id : Nat) (client_name : String)
    (client_email : String) (notes : Option String) :
    Except SchemaError BookingCreate :=
  if class_id < 1 then .error (.geViolation "class_id")
  else
    match validate_client_name_field client_name with
    | .error e => .error e
    | .ok nm =>
      match notes with
      | some n =>
        if 500 < n.length then .error (.lengthViolation "notes")
        else .ok { class_id := class_id, client_name := nm,
                   client_email := client_email, notes := some n }
      | none =>
        .ok { class_id := class_id, client_name := nm,
              client_email := client_email, notes := none }

/-- A request-level failure of `POST /api/v1/book`: either a schema
validation failure (HTTP 422, raised by pydantic before the service runs) or
a domain error (HTTP 404/409/400, raised by the service). -/
inductive RequestError
  | validation (e : SchemaError)
  | domain (e : BookingError)
deriving DecidableEq, Repr

/-- The `POST /api/v1/book` route (`app/api/v1/routes/booking.py`): pydantic
validates the body, then `BookingService.create_booking` runs. -/
def book_endpoint (db : DB) (class_id : Nat) (client_name : String)
    (client_email : String) (notes : Option String) (now : Int)
    (uuid_hex : String) (new_id : Nat) (commit_error : Option String) :
    Except RequestError Booking × DB :=
  match validate_booking_create class_id client_name client_email notes with
  | .error e => (.error (.validation e), db)
  | .ok bd =>
    match create_booking db bd now uuid_hex new_id commit_error with
    | (.error e, db') => (.error (.domain e), db')
    | (.ok b, db') => (.ok b, db')

/-! ## Class listing (`BookingService.get_all_classes`) -/

/-- Insert into a list kept ascending by `class_datetime`. -/
def insertByDatetime (c : FitnessClass) : List FitnessClass → List FitnessClass
  | [] => [c]
  | x :: xs =>
    if c.class_datetime ≤ x.class_datetime then c :: x :: xs
    else x :: insertByDatetime c xs

/-- `ORDER BY class_datetime` (ascending), as an insertion sort. -/
def sortByDatetime : List FitnessClass → List FitnessClass
  | [] => []
  | x :: xs => insertByDatetime x (sortByDatetime xs)

/-- `BookingService.get_all_classes(timezone)`: select the active classes
with `class_datetime > now`, order by `class_datetime`, and when a non-empty
timezone is supplied convert each returned datetime for display
(`fitness_class.class_datetime = tz_manager.convert_timezone(...)`, a
mutation of the session-loaded row only). Each returned element pairs the
stored row with the displayed datetime.

Modelled from the spec: the request session created by
`app.database.db_utils.get_db` (a module absent from `src/`) is closed after
the request without a commit, so per §4.2 of the spec the conversion is for
display only and "stored value is unaffected"; the persistent state
component of the result is therefore the unchanged `db`. -/
def get_all_classes (tzdb : String → Option Int) (default_off : Int)
    (db : DB) (now : Int) (timezone : Option String) :
    Except TZError (List (FitnessClass × PyDatetime)) × DB :=
  let classes := sortByDatetime
    (db.classes.filter (fun c => c.is_active && now < c.class_datetime))
  match timezone with
  | none => (.ok (classes.map (fun c => (c, ⟨c.class_datetime, none⟩))), db)
  | some tz =>
    if tz = "" ∨ classes = [] then
      (.ok (classes.map (fun c => (c, ⟨c.class_datetime, none⟩))), db)
    else
      match classes.mapM (fun c =>
        (convert_timezone tzdb default_off ⟨c.class_datetime, none⟩ tz).map
          (fun d => (c, d))) with
      | .error e => (.error e, db)
      | .ok res => (.ok res, db)

/-! ## Invariants and reachability -/

/-- The capacity invariant of §3 of the spec: `0 ≤ available_slots ≤
max_slots` for every class row. -/
def ClassInv (db : DB) : Prop :=
  ∀ c ∈ db.classes, 0 ≤ c.available_slots ∧ c.available_slots ≤ c.max_slots

/-- The confirmed bookings of a given (class id, client email) pair. -/
def confirmedFor (db : DB) (class_id : Nat) (client_email : String) : List Booking :=
  db.bookings.filter (fun b =>
    b.class_id == class_id && b.client_email == client_email &&
    b.booking_status == "confirmed")

/-- The duplicate invariant of §3 of the spec: at most one confirmed booking
per (class id, client email) pair. -/
def UniqueConfirmed (db : DB) : Prop :=
  ∀ class_id client_email, (confirmedFor db class_id client_email).length ≤ 1

/-- A freshly seeded store: no bookings yet, and every seeded class satisfies
the capacity invariant (seeding creates classes with
`available_slots = max_slots ≥ 1`). -/
def InitDB (db : DB) : Prop :=
  db.bookings = [] ∧ ClassInv db

/-- One state transition of the covered flows: the only operation that
writes to the store is `BookingService.create_booking` (listing and lookup
perform no persistent write). -/
inductive Step : DB → DB → Prop
  | book (db : DB) (bd : BookingCreate) (now : Int) (uuid_hex : String)
      (new_id : Nat) (commit_error : Option String) :
      Step db (create_booking db bd now uuid_hex new_id commit_error).2

/-- A state reachable from a freshly seeded store by the covered operations. -/
def Reachable (db : DB) : Prop :=
  ∃ db0, InitDB db0 ∧ Relation.ReflTransGen Step db0 db

/-! ## Concrete fixtures for witnesses and counterexamples -/

/-- A 32-character lowercase `uuid4().hex` value. -/
def hexEx : String := "0123456789abcdef0123456789abcdef"

/-- An active future class with free slots. -/
def clsOpen : FitnessClass :=
  { id := 1, name := "Yoga", description := none, instructor := "Sarah"
    class_datetime := 100, duration_minutes := 60, max_slots := 10
    available_slots := 5, is_active := true, created_at := 0 }

/-- An active class that already occurred and is fully booked. -/
def clsPastFull : FitnessClass :=
  { id := 1, name := "Yoga", description := none, instructor := "Sarah"
    class_datetime := 0, duration_minutes := 60, max_slots := 10
    available_slots := 0, is_active := true, created_at := 0 }

/-- An active future class with no free slots. -/
def clsFull : FitnessClass :=
  { id := 2, name := "Zumba", description := none, instructor := "Carlos"
    class_datetime := 100, duration_minutes := 45, max_slots := 10
    available_slots := 0, is_active := true, created_at := 0 }

/-- A confirmed booking for class 1 by `a@b.c`. -/
def bkConfirmed : Booking :=
  { id := 7, class_id := 1, client_name := "Ann", client_email := "a@b.c"
    booking_status := "confirmed", booking_reference := "FB01234567"
    notes := none, created_at := 0 }

/-- A request for class 1 by `a@b.c`. -/
def bdEx : BookingCreate :=
  { class_id := 1, client_name := "Ann", client_email := "a@b.c", notes := none }

/-- A request for class 2 by `a@b.c`. -/
def bdEx2 : BookingCreate :=
  { class_id := 2, client_name := "Ann", client_email := "a@b.c", notes := none }

/-- The empty store. -/
def dbEmpty : DB := { classes := [], bookings := [] }

/-- Store with one future but fully booked class (id 2). -/
def dbFull : DB := { classes := [clsFull], bookings := [] }

/-- Store with one open class and no bookings. -/
def dbOpen : DB := { classes := [clsOpen], bookings := [] }

/-- Store with one past, fully booked class. -/
def dbPastFull : DB := { classes := [clsPastFull], bookings := [] }

/-- Store with one open class and one confirmed booking for it. -/
def dbDup : DB := { classes := [clsOpen], bookings := [bkConfirmed] }

/-- A one-slot class starting at instant 0, still empty. -/
def clsTight : FitnessClass :=
  { id := 1, name := "Yoga", description := none, instructor := "Sarah"
    class_datetime := 0, duration_minutes := 60, max_slots := 1
    available_slots := 1, is_active := true, created_at := 0 }

/-- A freshly seeded store holding only `clsTight`. -/
def dbSeed : DB := { classes := [clsTight], bookings := [] }

/-- The booking row created by booking `clsTight` at instant -1 (before the
class starts). -/
def bkPast : Booking := newBooking bdEx (-1) hexEx 7

/-- The store after that booking: the class is now full, holds one confirmed
booking for (class 1, `a@b.c`) — and has since started once `now` moves past
instant 0. This is exactly `(create_booking dbSeed bdEx (-1) hexEx 7 none).2`. -/
def dbDupPast : DB :=
  { classes := [{ clsTight with available_slots := 0 }], bookings := [bkPast] }

/-- A tiny timezone database: two known identifiers (offsets in minutes). -/
def tzdbEx : String → Option Int := fun s =>
  if s = "Asia/Kolkata" then some 330
  else if s = "UTC" then some 0
  else none

/-- Recognizer used by the C8 counterexample: is the request outcome a
domain `InvalidBookingData` rejection? -/
def isDomainInvalid : Except RequestError Booking → Bool
  | .error (.domain (.InvalidBookingData _)) => true
  | _ => false

/-! ## Helper lemmas -/

theorem mem_eq_of_length_le_one {α : Type} {l : List α} {a b : α}
    (ha : a ∈ l) (hb : b ∈ l) (h : l.length ≤ 1) : a = b := by
  match l with
  | [] => cases ha
  | [x] =>
    rw [List.mem_singleton] at ha hb
    rw [ha, hb]
  | x :: y :: t => simp at h

theorem get_class_by_id_ok {db : DB} {cid : Nat} {fc : FitnessClass}
    (h : get_class_by_id db cid = .ok fc) :
    db.classes.find? (fun c => c.id == cid && c.is_active) = some fc := by
  unfold get_class_by_id at h
  cases hf : db.classes.find? (fun c => c.id == cid && c.is_active) with
  | some x => rw [hf] at h; injection h with h2; rw [h2]
  | none => rw [hf] at h; cases h

theorem find?_updateFirst_decomp {α : Type} (p : α → Bool) (f : α → α) :
    ∀ (l : List α) (a : α), l.find? p = some a →
      ∃ l1 l2, l = l1 ++ a :: l2 ∧ (∀ x ∈ l1, p x = false) ∧
        updateFirst p f l = l1 ++ f a :: l2 := by
  intro l
  induction l with
  | nil => intro a h; simp [List.find?] at h
  | cons x xs ih =>
    intro a h
    by_cases hp : p x
    · rw [List.find?_cons_of_pos _ hp] at h
      injection h with h2
      subst h2
      exact ⟨[], xs, rfl, by simp, by simp [updateFirst, hp]⟩
    · rw [List.find?_cons_of_neg _ hp] at h
      obtain ⟨l1, l2, h1, h2, h3⟩ := ih a h
      refine ⟨x :: l1, l2, by rw [List.cons_append, h1], ?_, ?_⟩
      · intro y hy
        rcases List.mem_cons.mp hy with rfl | hy2
        · exact Bool.eq_false_iff.mpr hp
        · exact h2 y hy2
      · simp only [updateFirst, if_neg hp, h3, List.cons_append]

/-- Branch lemma: existence check fails. -/
theorem create_booking_classNotFound {db : DB} {bd : BookingCreate} {now : Int}
    {uuid_hex : String} {new_id : Nat} {commit_error : Option String}
    {e : BookingError} (h : get_class_by_id db bd.class_id = .error e) :
    create_booking db bd now uuid_hex new_id commit_error = (.error e, db) := by
  unfold create_booking
  rw [h]

/-- Branch lemma: timing check fails. -/
theorem create_booking_past {db : DB} {bd : BookingCreate} {now : Int}
    {uuid_hex : String} {new_id : Nat} {commit_error : Option String}
    {fc : FitnessClass} (h : get_class_by_id db bd.class_id = .ok fc)
    (hp : fc.class_datetime < now) :
    create_booking db bd now uuid_hex new_id commit_error
      = (.error (.InvalidBookingData "Cannot book a class that has already occurred"), db) := by
  unfold create_booking
  rw [h]
  simp only [if_pos hp]

/-- Branch lemma: capacity check fails. -/
theorem create_booking_noSlots {db : DB} {bd : BookingCreate} {now : Int}
    {uuid_hex : String} {new_id : Nat} {commit_error : Option String}
    {fc : FitnessClass} (h : get_class_by_id db bd.class_id = .ok fc)
    (hp : ¬ fc.class_datetime < now) (hs : fc.available_slots ≤ 0) :
    create_booking db bd now uuid_hex new_id commit_error
      = (.error (.NoSlotsAvailable
          ("No available slots for class \x27" ++ fc.name ++ "\x27")
          bd.class_id fc.available_slots), db) := by
  unfold create_booking
  rw [h]
  simp only [if_neg hp, if_pos hs]

/-- Branch lemma: duplicate check fails. -/
theorem create_booking_dup {db : DB} {bd : BookingCreate} {now : Int}
    {uuid_hex : String} {new_id : Nat} {commit_error : Option String}
    {fc : FitnessClass} {ex : Booking}
    (h : get_class_by_id db bd.class_id = .ok fc)
    (hp : ¬ fc.class_datetime < now) (hs : ¬ fc.available_slots ≤ 0)
    (hd : find_duplicate db bd.class_id bd.client_email = some ex) :
    create_booking db bd now uuid_hex new_id commit_error
      = (.error (.DuplicateBooking
          ("Client " ++ bd.client_email ++ " already has a booking for this class")
          ex.id), db) := by
  unfold create_booking
  rw [h]
  simp only [if_neg hp, if_neg hs, hd]

/-- Branch lemma: unexpected write-phase failure. -/
theorem create_booking_commitFail {db : DB} {bd : BookingCreate} {now : Int}
    {uuid_hex : String} {new_id : Nat} {msg : String} {fc : FitnessClass}
    (h : get_class_by_id db bd.class_id = .ok fc)
    (hp : ¬ fc.class_datetime < now) (hs : ¬ fc.available_slots ≤ 0)
    (hd : find_duplicate db bd.class_id bd.client_email = none) :
    create_booking db bd now uuid_hex new_id (some msg)
      = (.error (.InvalidBookingData ("Failed to create booking: " ++ msg)), db) := by
  unfold create_booking
  rw [h]
  simp only [if_neg hp, if_neg hs, hd]

/-- Branch lemma: all checks pass and the commit succeeds. -/
theorem create_booking_success {db : DB} {bd : BookingCreate} {now : Int}
    {uuid_hex : String} {new_id : Nat} {fc : FitnessClass}
    (h : get_class_by_id db bd.class_id = .ok fc)
    (hp : ¬ fc.class_datetime < now) (hs : ¬ fc.available_slots ≤ 0)
    (hd : find_duplicate db bd.class_id bd.client_email = none) :
    create_booking db bd now uuid_hex new_id none
      = (.ok (newBooking bd now uuid_hex new_id),
         { classes := updateFirst
             (fun c => c.id == bd.class_id && c.is_active)
             (fun c => { c with available_slots := c.available_slots - 1 })
             db.classes
           bookings := db.bookings ++ [newBooking bd now uuid_hex new_id] }) := by
  unfold create_booking
  rw [h]
  simp only [if_neg hp, if_neg hs, hd]

/-- Every error return of `create_booking` leaves the store untouched. -/
theorem create_booking_error_snd {db : DB} {bd : BookingCreate} {now : Int}
    {uuid_hex : String} {new_id : Nat} {commit_error : Option String}
    {e : BookingError}
    (h : (create_booking db bd now uuid_hex new_id commit_error).1 = .error e) :
    (create_booking db bd now uuid_hex new_id commit_error).2 = db := by
  cases hfc : get_class_by_id db bd.class_id with
  | error e2 => rw [create_booking_classNotFound hfc]
  | ok fc =>
    by_cases hp : fc.class_datetime < now
    · rw [create_booking_past hfc hp]
    · by_cases hs : fc.available_slots ≤ 0
      · rw [create_booking_noSlots hfc hp hs]
      · cases hd : find_duplicate db bd.class_id bd.client_email with
        | some ex => rw [create_booking_dup hfc hp hs hd]
        | none =>
          cases commit_error with
          | some msg => rw [create_booking_commitFail hfc hp hs hd]
          | none =>
            rw [create_booking_success hfc hp hs hd] at h
            cases h

theorem toUpper_lowerHex {c : Char} (h : isLowerHexDigit c = true) :
    isUpperHexChar c.toUpper = true := by
  simp only [isLowerHexDigit, Bool.or_eq_true, beq_iff_eq] at h
  rcases h with ((((((((((((((h | h) | h) | h) | h) | h) | h) | h) | h) | h) | h) | h) | h) | h) | h) | h <;>
    subst h <;> decide

/-- The generated reference always matches the spec format, given the shape
of `uuid4().hex` (32 lowercase hexadecimal characters). -/
theorem validReference_gen {u : String} (hlen : u.length = 32)
    (hhex : u.data.all isLowerHexDigit = true) :
    validReference (generate_booking_reference u) = true := by
  have hdata : (generate_booking_reference u).data
      = 'F' :: 'B' :: (u.data.take 8).map Char.toUpper := rfl
  have hlen' : u.data.length = 32 := hlen
  rw [validReference, hdata]
  simp only [Bool.and_eq_true, beq_iff_eq, List.length_map, List.length_take,
    hlen', List.all_eq_true]
  refine ⟨rfl, ?_⟩
  intro x hx
  obtain ⟨c, hc, rfl⟩ := List.mem_map.mp hx
  have hcmem : c ∈ u.data := List.mem_of_mem_take hc
  exact toUpper_lowerHex (List.all_eq_true.mp hhex c hcmem)

/-- `create_booking` preserves the duplicate invariant. -/
theorem step_preserves_uniqueConfirmed {db db' : DB}
    (h : Step db db') (hu : UniqueConfirmed db) : UniqueConfirmed db' := by
  cases h with
  | book bd now uuid_hex new_id commit_error =>
    cases hfc : get_class_by_id db bd.class_id with
    | error e => rw [create_booking_classNotFound hfc]; exact hu
    | ok fc =>
      by_cases hp : fc.class_datetime < now
      · rw [create_booking_past hfc hp]; exact hu
      · by_cases hs : fc.available_slots ≤ 0
        · rw [create_booking_noSlots hfc hp hs]; exact hu
        · cases hd : find_duplicate db bd.class_id bd.client_email with
          | some ex => rw [create_booking_dup hfc hp hs hd]; exact hu
          | none =>
            cases commit_error with
            | some msg => rw [create_booking_commitFail hfc hp hs hd]; exact hu
            | none =>
              rw [create_booking_success hfc hp hs hd]
              intro cid em
              have hnone := List.find?_eq_none.mp hd
              unfold confirmedFor
              simp only [List.filter_append, List.length_append]
              by_cases hm : (fun b => b.class_id == cid && b.client_email == em &&
                  b.booking_status == "confirmed") (newBooking bd now uuid_hex new_id) = true
              · have hcid : bd.class_id = cid := by
                  simp only [newBooking, Bool.and_eq_true, beq_iff_eq] at hm
                  exact hm.1.1
                have hem : bd.client_email = em := by
                  simp only [newBooking, Bool.and_eq_true, beq_iff_eq] at hm
                  exact hm.1.2
                subst hcid; subst hem
                have hempty : db.bookings.filter (fun b =>
                    b.class_id == bd.class_id && b.client_email == bd.client_email &&
                    b.booking_status == "confirmed") = [] := by
                  rw [List.filter_eq_nil_iff]
                  intro b hb
                  exact hnone b hb
                rw [hempty]
                simp [List.filter, hm]
              · have hm2 : ((newBooking bd now uuid_hex new_id).class_id == cid &&
                    (newBooking bd now uuid_hex new_id).client_email == em &&
                    (newBooking bd now uuid_hex new_id).booking_status == "confirmed") = false :=
                  Bool.eq_false_iff.mpr hm
                have hnil : List.filter (fun b =>
                    b.class_id == cid && b.client_email == em &&
                    b.booking_status == "confirmed") [newBooking bd now uuid_hex new_id] = [] := by
                  simp only [List.filter]
                  rw [hm2]
                rw [hnil]
                simpa [confirmedFor] using hu cid em

/-- `create_booking` preserves the capacity invariant. -/
theorem step_preserves_classInv {db db' : DB}
    (h : Step db db') (hc : ClassInv db) : ClassInv db' := by
  cases h with
  | book bd now uuid_hex new_id commit_error =>
    cases hfc : get_class_by_id db bd.class_id with
    | error e => rw [create_booking_classNotFound hfc]; exact hc
    | ok fc =>
      by_cases hp : fc.class_datetime < now
      · rw [create_booking_past hfc hp]; exact hc
      · by_cases hs : fc.available_slots ≤ 0
        · rw [create_booking_noSlots hfc hp hs]; exact hc
        · cases hd : find_duplicate db bd.class_id bd.client_email with
          | some ex => rw [create_booking_dup hfc hp hs hd]; exact hc
          | none =>
            cases commit_error with
            | some msg => rw [create_booking_commitFail hfc hp hs hd]; exact hc
            | none =>
              rw [create_booking_success hfc hp hs hd]
              obtain ⟨l1, l2, hsplit, _, hupd⟩ :=
                find?_updateFirst_decomp
                  (fun c => c.id == bd.class_id && c.is_active)
                  (fun c => { c with available_slots := c.available_slots - 1 })
                  db.classes fc (get_class_by_id_ok hfc)
              intro c hcmem
              simp only [hupd] at hcmem
              have hfcinv := hc fc (by rw [hsplit]; exact List.mem_append_right _ (List.mem_cons_self _ _))
              rcases List.mem_append.mp hcmem with h1 | h2
              · exact hc c (by rw [hsplit]; exact List.mem_append_left _ h1)
              · rcases List.mem_cons.mp h2 with rfl | h3
                · refine ⟨?_, ?_⟩ <;> simp only [] <;> omega
                · exact hc c (by
                    rw [hsplit]
                    exact List.mem_append_right _ (List.mem_cons_of_mem _ h3))

/-! ## Claim theorems -/

/-- Claim C6 (confirmed, session semantics modelled from the spec):
listing classes with a display timezone never changes the persistent store —
the timezone conversion of the returned start timestamps is for display
only, so every stored `class_datetime` (and every other row) is the same
after the call as before it. -/
theorem C6_listing_is_read_only :
    ∀ (tzdb : String → Option Int) (default_off : Int) (db : DB) (now : Int)
      (timezone : Option String),
      (get_all_classes tzdb default_off db now timezone).2 = db := by
  intro tzdb default_off db now tz
  cases tz with
  | none => rfl
  | some t =>
    simp only [get_all_classes]
    split
    · rfl
    · split <;> rfl

/-- Claim C9 (confirmed): converting a timestamp to a target-timezone string
that the timezone database does not recognize fails with `InvalidTimezone`;
for a recognized identifier the result denotes the same instant expressed
with the target timezone's offset, an offset-free input being interpreted in
the reference timezone. -/
theorem C9_convert_timezone_contract :
    ∀ (tzdb : String → Option Int) (default_off : Int) (dt : PyDatetime)
      (target : String),
      (tzdb target = none →
        convert_timezone tzdb default_off dt target
          = .error (.InvalidTimezone target)) ∧
      (∀ off, tzdb target = some off →
        ∃ r, convert_timezone tzdb default_off dt target = .ok r ∧
          r.tzoff = some off ∧
          r.instant = (localize_default default_off dt).instant ∧
          (dt.tzoff = none → r.instant = dt.wall - default_off)) := by
  intro tzdb default_off dt target
  constructor
  · intro h
    simp only [convert_timezone, h]
  · intro off h
    refine ⟨⟨(localize_default default_off dt).instant + off, some off⟩, ?_, rfl, ?_, ?_⟩
    · simp only [convert_timezone, h]
    · simp only [PyDatetime.instant, Option.getD_some]
      omega
    · intro hn
      simp only [PyDatetime.instant, localize_default, hn, Option.getD_some]
      omega

/-- Witness for C9: with a concrete two-entry timezone database, conversion
of the naive instant 1000 to the unknown identifier `Nowhere` fails with
`InvalidTimezone`, and to `UTC` succeeds with offset 0 preserving the
instant of the input localized to the reference offset 330. -/
theorem C9_convert_timezone_contract_witness :
    convert_timezone tzdbEx 330 ⟨1000, none⟩ "Nowhere"
      = .error (.InvalidTimezone "Nowhere") ∧
    ∃ r, convert_timezone tzdbEx 330 ⟨1000, none⟩ "UTC" = .ok r ∧
      r.tzoff = some 0 ∧
      r.instant = (localize_default 330 ⟨1000, none⟩).instant ∧
      ((⟨1000, none⟩ : PyDatetime).tzoff = none → r.instant = 1000 - 330) :=
  ⟨(C9_convert_timezone_contract tzdbEx 330 ⟨1000, none⟩ "Nowhere").1 (by decide),
   (C9_convert_timezone_contract tzdbEx 330 ⟨1000, none⟩ "UTC").2 0 (by decide)⟩

/-- Claim C10 (confirmed): the `min_length=2` constraint on `client_name` is
checked on the raw input before trimming, so the input `" a "` (length 3,
one non-whitespace character) is accepted and its stored, title-cased form
`"A"` has length 1 < 2. -/
theorem C10_min_length_checked_before_trim :
    validate_client_name_field " a " = .ok "A" ∧
    (" a ").length = 3 ∧ ("A").length = 1 := by
  refine ⟨?_, ?_, ?_⟩ <;> rfl

/-- Counterexample to claim C1 as stated: a booking request for a class with
`available_slots = 0` does not always fail with `NoSlotsAvailable` — when
the class already occurred, the timing check fires first and the call fails
with `InvalidBookingData`. -/
theorem C1_counterexample :
    (create_booking dbPastFull bdEx 5 hexEx 1 none).1
      = .error (.InvalidBookingData "Cannot book a class that has already occurred") ∧
    (create_booking dbPastFull bdEx 5 hexEx 1 none).1
      ≠ .error (.NoSlotsAvailable "No available slots for class \x27Yoga\x27" 1 0) := by
  constructor
  · rfl
  · decide

/-- Claim C1 (amended): for every booking request whose target class is
found (exists and is active) and has not yet started, `available_slots ≤ 0`
makes `create_booking` fail with `NoSlotsAvailable`; and every failing call
— any of the four precondition failures included — leaves the entire store
exactly as it was: no booking row is created and no class row changes. -/
theorem C1_no_slots_and_failure_frame :
    (∀ (db : DB) (bd : BookingCreate) (now : Int) (uuid_hex : String)
       (new_id : Nat) (commit_error : Option String) (fc : FitnessClass),
      get_class_by_id db bd.class_id = .ok fc →
      ¬ fc.class_datetime < now →
      fc.available_slots ≤ 0 →
      (create_booking db bd now uuid_hex new_id commit_error).1
        = .error (.NoSlotsAvailable
            ("No available slots for class \x27" ++ fc.name ++ "\x27")
            bd.class_id fc.available_slots) ∧
      (create_booking db bd now uuid_hex new_id commit_error).2 = db) ∧
    (∀ (db : DB) (bd : BookingCreate) (now : Int) (uuid_hex : String)
       (new_id : Nat) (commit_error : Option String) (e : BookingError),
      (create_booking db bd now uuid_hex new_id commit_error).1 = .error e →
      (create_booking db bd now uuid_hex new_id commit_error).2 = db) := by
  constructor
  · intro db bd now uuid_hex new_id commit_error fc hfc hp hs
    rw [create_booking_noSlots hfc hp hs]
    exact ⟨rfl, rfl⟩
  · intro db bd now uuid_hex new_id commit_error e h
    exact create_booking_error_snd h

/-- Witness for C1: on a store with one future class of zero available
slots, booking fails with `NoSlotsAvailable` and the store is unchanged. -/
theorem C1_no_slots_and_failure_frame_witness :
    ((create_booking dbFull bdEx2 5 hexEx 1 none).1
        = .error (.NoSlotsAvailable "No available slots for class \x27Zumba\x27" 2 0) ∧
      (create_booking dbFull bdEx2 5 hexEx 1 none).2 = dbFull) ∧
    (create_booking dbPastFull bdEx 5 hexEx 1 none).2 = dbPastFull := by
  constructor
  · exact C1_no_slots_and_failure_frame.1 dbFull bdEx2 5 hexEx 1 none clsFull
      (by rfl) (by decide) (by decide)
  · exact C1_no_slots_and_failure_frame.2 dbPastFull bdEx 5 hexEx 1 none
      (.InvalidBookingData "Cannot book a class that has already occurred") (by rfl)

/-- Claim C4 (confirmed): `create_booking` evaluates its preconditions in
the fixed order existence → timing → capacity → duplicate, each
short-circuiting: whatever the rest of the store looks like, the error
reported is that of the first failing check. -/
theorem C4_check_order :
    (∀ (db : DB) (bd : BookingCreate) (now : Int) (uuid_hex : String)
       (new_id : Nat) (commit_error : Option String),
      (∀ c ∈ db.classes, ¬ (c.id = bd.class_id ∧ c.is_active = true)) →
      (create_booking db bd now uuid_hex new_id commit_error).1
        = .error (.ClassNotFound
            ("Class with ID " ++ Nat.repr bd.class_id ++ " not found or inactive")
            bd.class_id)) ∧
    (∀ (db : DB) (bd : BookingCreate) (now : Int) (uuid_hex : String)
       (new_id : Nat) (commit_error : Option String) (fc : FitnessClass),
      get_class_by_id db bd.class_id = .ok fc →
      fc.class_datetime < now →
      (create_booking db bd now uuid_hex new_id commit_error).1
        = .error (.InvalidBookingData "Cannot book a class that has already occurred")) ∧
    (∀ (db : DB) (bd : BookingCreate) (now : Int) (uuid_hex : String)
       (new_id : Nat) (commit_error : Option String) (fc : FitnessClass),
      get_class_by_id db bd.class_id = .ok fc →
      ¬ fc.class_datetime < now →
      fc.available_slots ≤ 0 →
      (create_booking db bd now uuid_hex new_id commit_error).1
        = .error (.NoSlotsAvailable
            ("No available slots for class \x27" ++ fc.name ++ "\x27")
            bd.class_id fc.available_slots)) ∧
    (∀ (db : DB) (bd : BookingCreate) (now : Int) (uuid_hex : String)
       (new_id : Nat) (commit_error : Option String) (fc : FitnessClass)
       (ex : Booking),
      get_class_by_id db bd.class_id = .ok fc →
      ¬ fc.class_datetime < now →
      ¬ fc.available_slots ≤ 0 →
      find_duplicate db bd.class_id bd.client_email = some ex →
      (create_booking db bd now uuid_hex new_id commit_error).1
        = .error (.DuplicateBooking
            ("Client " ++ bd.client_email ++ " already has a booking for this class")
            ex.id)) := by
  refine ⟨?_, ?_, ?_, ?_⟩
  · intro db bd now uuid_hex new_id commit_error h
    have hnone : db.classes.find? (fun c => c.id == bd.class_id && c.is_active) = none := by
      rw [List.find?_eq_none]
      intro c hc
      simp only [Bool.and_eq_true, beq_iff_eq, not_and]
      intro h1 h2
      exact h c hc ⟨h1, h2⟩
    have herr : get_class_by_id db bd.class_id
        = .error (.ClassNotFound
            ("Class with ID " ++ Nat.repr bd.class_id ++ " not found or inactive")
            bd.class_id) := by
      unfold get_class_by_id
      rw [hnone]
    rw [create_booking_classNotFound herr]
  · intro db bd now uuid_hex new_id commit_error fc hfc hp
    rw [create_booking_past hfc hp]
  · intro db bd now uuid_hex new_id commit_error fc hfc hp hs
    rw [create_booking_noSlots hfc hp hs]
  · intro db bd now uuid_hex new_id commit_error fc ex hfc hp hs hd
    rw [create_booking_dup hfc hp hs hd]

/-- Witness for C4: the four error paths at concrete stores — an empty
catalog, a past class, a future full class, and a duplicate booking. -/
theorem C4_check_order_witness :
    (create_booking dbEmpty bdEx 5 hexEx 1 none).1
      = .error (.ClassNotFound "Class with ID 1 not found or inactive" 1) ∧
    (create_booking dbPastFull bdEx 5 hexEx 1 none).1
      = .error (.InvalidBookingData "Cannot book a class that has already occurred") ∧
    (create_booking dbFull bdEx2 5 hexEx 1 none).1
      = .error (.NoSlotsAvailable "No available slots for class \x27Zumba\x27" 2 0) ∧
    (create_booking dbDup bdEx 5 hexEx 1 none).1
      = .error (.DuplicateBooking "Client a@b.c already has a booking for this class" 7) := by
  refine ⟨?_, ?_, ?_, ?_⟩
  · exact C4_check_order.1 dbEmpty bdEx 5 hexEx 1 none (by decide)
  · exact C4_check_order.2.1 dbPastFull bdEx 5 hexEx 1 none clsPastFull (by rfl) (by decide)
  · exact C4_check_order.2.2.1 dbFull bdEx2 5 hexEx 1 none clsFull (by rfl) (by decide) (by decide)
  · exact C4_check_order.2.2.2 dbDup bdEx 5 hexEx 1 none clsOpen bkConfirmed
      (by rfl) (by decide) (by decide) (by rfl)

/-- Counterexample to claim C7 as stated: the caller-visible
`InvalidBookingData` message produced for an unexpected write-phase failure
is `"Failed to create booking: " + str(e)` — it embeds the underlying
cause verbatim and differs between causes, so it is not generic and
internal details do appear in the caller-visible payload. -/
theorem C7_counterexample :
    (create_booking dbOpen bdEx 5 hexEx 1
        (some "UNIQUE constraint failed: bookings.booking_reference")).1
      = .error (.InvalidBookingData
          "Failed to create booking: UNIQUE constraint failed: bookings.booking_reference") ∧
    (create_booking dbOpen bdEx 5 hexEx 1
        (some "UNIQUE constraint failed: bookings.booking_reference")).1
      ≠ (create_booking dbOpen bdEx 5 hexEx 1 (some "database is locked")).1 := by
  constructor
  · rfl
  · decide

/-- Claim C7 (amended): an unexpected failure during the write phase of
`create_booking` is fully rolled back — no booking row and no decremented
`available_slots` survive, the store is exactly the pre-call one — and is
re-reported to the caller as `InvalidBookingData`; its message is
`"Failed to create booking: "` followed by the underlying exception's text,
so the underlying cause does appear in the caller-visible payload. -/
theorem C7_write_failure_rollback :
    ∀ (db : DB) (bd : BookingCreate) (now : Int) (uuid_hex : String)
      (new_id : Nat) (msg : String) (fc : FitnessClass),
      get_class_by_id db bd.class_id = .ok fc →
      ¬ fc.class_datetime < now →
      ¬ fc.available_slots ≤ 0 →
      find_duplicate db bd.class_id bd.client_email = none →
      create_booking db bd now uuid_hex new_id (some msg)
        = (.error (.InvalidBookingData ("Failed to create booking: " ++ msg)), db) := by
  intro db bd now uuid_hex new_id msg fc hfc hp hs hd
  exact create_booking_commitFail hfc hp hs hd

/-- Witness for C7: a concrete write-phase failure on an otherwise valid
request rolls back and reports the wrapped message. -/
theorem C7_write_failure_rollback_witness :
    create_booking dbOpen bdEx 5 hexEx 1 (some "database is locked")
      = (.error (.InvalidBookingData "Failed to create booking: database is locked"),
         dbOpen) :=
  C7_write_failure_rollback dbOpen bdEx 5 hexEx 1 "database is locked" clsOpen
    (by rfl) (by decide) (by decide) (by rfl)

/-- Counterexample to claim C8 as stated: a `client_name` that is empty
after trimming (here two spaces, which passes the raw `min_length=2` check)
is rejected by pydantic schema validation (`ValueError`, HTTP 422), not by
the domain error `InvalidBookingData`: the request never reaches the
service, and the outcome is not a domain `InvalidBookingData` rejection. -/
theorem C8_counterexample :
    (book_endpoint dbOpen 1 "  " "a@b.c" none 5 hexEx 1 none).1
      = .error (.validation (.valueError "Client name cannot be empty")) ∧
    isDomainInvalid (book_endpoint dbOpen 1 "  " "a@b.c" none 5 hexEx 1 none).1 = false ∧
    (book_endpoint dbOpen 1 "  " "a@b.c" none 5 hexEx 1 none).2 = dbOpen := by
  refine ⟨?_, ?_, ?_⟩ <;> rfl

/-- Claim C8 (amended): `client_name` is trimmed of surrounding whitespace;
a value that is empty after trimming (and long enough to pass the raw
`min_length=2` constraint) is rejected by schema validation with the
`ValueError` message `"Client name cannot be empty"` — surfaced as an HTTP
422 validation failure, not as the domain error `InvalidBookingData` — and
an accepted value is stored title-cased after trimming. -/
theorem C8_name_normalization :
    (∀ v : String, 2 ≤ v.length → v.length ≤ 100 → pyStrip v = "" →
      validate_client_name_field v
        = .error (.valueError "Client name cannot be empty")) ∧
    (∀ v : String, 2 ≤ v.length → v.length ≤ 100 → pyStrip v ≠ "" →
      validate_client_name_field v = .ok (pyTitle (pyStrip v))) ∧
    (∀ (db : DB) (class_id : Nat) (client_name client_email : String)
       (notes : Option String) (now : Int) (uuid_hex : String) (new_id : Nat)
       (commit_error : Option String),
      1 ≤ class_id → 2 ≤ client_name.length → client_name.length ≤ 100 →
      pyStrip client_name = "" →
      book_endpoint db class_id client_name client_email notes now uuid_hex
          new_id commit_error
        = (.error (.validation (.valueError "Client name cannot be empty")), db)) := by
  have key : ∀ v : String, 2 ≤ v.length → v.length ≤ 100 → pyStrip v = "" →
      validate_client_name_field v
        = .error (.valueError "Client name cannot be empty") := by
    intro v h2 h100 hstrip
    have hv : validate_client_name v = .error "Client name cannot be empty" := by
      unfold validate_client_name
      rw [if_pos hstrip]
    unfold validate_client_name_field
    rw [if_neg (by omega), if_neg (by omega), hv]
  refine ⟨key, ?_, ?_⟩
  · intro v h2 h100 hstrip
    have hv : validate_client_name v = .ok (pyTitle (pyStrip v)) := by
      unfold validate_client_name
      rw [if_neg hstrip]
    unfold validate_client_name_field
    rw [if_neg (by omega), if_neg (by omega), hv]
  · intro db class_id client_name client_email notes now uuid_hex new_id
      commit_error h1 h2 h100 hstrip
    unfold book_endpoint validate_booking_create
    rw [if_neg (by omega), key client_name h2 h100 hstrip]

/-- Witness for C8: the all-whitespace name `"  "` is rejected with the
schema `ValueError` (theorem applied at the concrete store too), and the
name `" ann lee "` is accepted and stored as its title-cased trimmed form. -/
theorem C8_name_normalization_witness :
    validate_client_name_field "  "
      = .error (.valueError "Client name cannot be empty") ∧
    validate_client_name_field " ann lee " = .ok (pyTitle (pyStrip " ann lee ")) ∧
    book_endpoint dbOpen 1 "  " "a@b.c" none 5 hexEx 1 none
      = (.error (.validation (.valueError "Client name cannot be empty")), dbOpen) := by
  refine ⟨?_, ?_, ?_⟩
  · exact C8_name_normalization.1 "  " (by decide) (by decide) (by rfl)
  · exact C8_name_normalization.2.1 " ann lee " (by decide) (by decide) (by decide)
  · exact C8_name_normalization.2.2 dbOpen 1 "  " "a@b.c" none 5 hexEx 1 none
      (by decide) (by decide) (by decide) (by rfl)

/-- Counterexample to claim C2 as stated: a reachable store can hold a
confirmed booking for (class 1, `a@b.c`) whose class has since started —
book the one-slot class at instant -1, then let `now` advance to 5. The
second `create_booking` call for the same pair then fails with
`InvalidBookingData` (the timing check runs before the duplicate check),
not with `DuplicateBooking` carrying the existing booking's id. -/
theorem C2_counterexample :
    Reachable dbDupPast ∧
    bkPast ∈ dbDupPast.bookings ∧
    bkPast.class_id = bdEx.class_id ∧
    bkPast.client_email = bdEx.client_email ∧
    bkPast.booking_status = "confirmed" ∧
    (create_booking dbDupPast bdEx 5 hexEx 9 none).1
      = .error (.InvalidBookingData "Cannot book a class that has already occurred") ∧
    (create_booking dbDupPast bdEx 5 hexEx 9 none).1
      ≠ .error (.DuplicateBooking
          "Client a@b.c already has a booking for this class" bkPast.id) := by
  refine ⟨?_, by decide, by decide, by decide, by decide, by rfl, by decide⟩
  refine ⟨dbSeed, ⟨rfl, by unfold ClassInv; decide⟩, Relation.ReflTransGen.single ?_⟩
  have h := Step.book dbSeed bdEx (-1) hexEx 7 none
  have heq : (create_booking dbSeed bdEx (-1) hexEx 7 none).2 = dbDupPast := by decide
  rwa [heq] at h

/-- Claim C2 (amended): every reachable store has at most one confirmed
booking per (class id, client email) pair; and when a confirmed booking for
the pair already exists while the target class is still found active, has
not started, and has available slots, a further `create_booking` call for
the same pair fails with `DuplicateBooking` carrying the existing booking's
id and writes nothing. -/
theorem C2_duplicate_invariant :
    (∀ db, Reachable db → UniqueConfirmed db) ∧
    (∀ (db : DB) (bd : BookingCreate) (now : Int) (uuid_hex : String)
       (new_id : Nat) (commit_error : Option String) (fc : FitnessClass)
       (b : Booking),
      UniqueConfirmed db →
      get_class_by_id db bd.class_id = .ok fc →
      ¬ fc.class_datetime < now →
      ¬ fc.available_slots ≤ 0 →
      b ∈ db.bookings → b.class_id = bd.class_id →
      b.client_email = bd.client_email → b.booking_status = "confirmed" →
      (create_booking db bd now uuid_hex new_id commit_error).1
        = .error (.DuplicateBooking
            ("Client " ++ bd.client_email ++ " already has a booking for this class")
            b.id) ∧
      (create_booking db bd now uuid_hex new_id commit_error).2 = db) := by
  constructor
  · rintro db ⟨db0, ⟨hb0, _⟩, hsteps⟩
    induction hsteps with
    | refl =>
      intro cid em
      simp [confirmedFor, hb0]
    | tail hpre st ih => exact step_preserves_uniqueConfirmed st ih
  · intro db bd now uuid_hex new_id commit_error fc b hu hfc hp hs hbmem hbcid hbem hbst
    have hpb : (b.class_id == bd.class_id && b.client_email == bd.client_email &&
        b.booking_status == "confirmed") = true := by
      simp [hbcid, hbem, hbst]
    cases hd : find_duplicate db bd.class_id bd.client_email with
    | none =>
      exfalso
      have hd' := hd
      unfold find_duplicate at hd'
      exact absurd hpb (by simpa using List.find?_eq_none.mp hd' b hbmem)
    | some ex =>
      have hd' := hd
      unfold find_duplicate at hd'
      have hexpred := List.find?_some hd'
      have hexmem := List.mem_of_find?_eq_some hd'
      have hbfil : b ∈ confirmedFor db bd.class_id bd.client_email :=
        List.mem_filter.mpr ⟨hbmem, hpb⟩
      have hexfil : ex ∈ confirmedFor db bd.class_id bd.client_email :=
        List.mem_filter.mpr ⟨hexmem, hexpred⟩
      have hbe : b = ex := mem_eq_of_length_le_one hbfil hexfil (hu bd.class_id bd.client_email)
      subst hbe
      constructor
      · rw [create_booking_dup hfc hp hs hd]
      · rw [create_booking_dup hfc hp hs hd]

/-- Witness for C2: a freshly seeded store is reachable and satisfies the
invariant, and on a concrete store already holding a confirmed booking for
(class 1, `a@b.c`) the second request fails with `DuplicateBooking 7` and
leaves the store unchanged. -/
theorem C2_duplicate_invariant_witness :
    UniqueConfirmed dbOpen ∧
    (create_booking dbDup bdEx 5 hexEx 9 none).1
      = .error (.DuplicateBooking
          "Client a@b.c already has a booking for this class" 7) ∧
    (create_booking dbDup bdEx 5 hexEx 9 none).2 = dbDup := by
  have hu : UniqueConfirmed dbDup := fun cid em =>
    le_trans (List.length_filter_le _ _) (by decide)
  have h := C2_duplicate_invariant.2 dbDup bdEx 5 hexEx 9 none clsOpen bkConfirmed
    hu (by rfl) (by decide) (by decide) (by decide) (by decide) (by decide) (by decide)
  exact ⟨C2_duplicate_invariant.1 dbOpen
      ⟨dbOpen, ⟨rfl, by unfold ClassInv; decide⟩, Relation.ReflTransGen.refl⟩,
    h.1, h.2⟩

/-- Claim C3 (confirmed): a booking request that passes all four
precondition checks (and whose commit succeeds) creates exactly one new
confirmed booking row for the requested class and email, decrements exactly
that class's `available_slots` by 1 leaving every other class row untouched,
and the generated reference is `FB` followed by exactly 8 uppercase
hexadecimal characters (given the 32 lowercase hexadecimal characters of
`uuid4().hex`). -/
theorem C3_successful_booking :
    ∀ (db : DB) (bd : BookingCreate) (now : Int) (uuid_hex : String)
      (new_id : Nat) (fc : FitnessClass),
      get_class_by_id db bd.class_id = .ok fc →
      ¬ fc.class_datetime < now →
      ¬ fc.available_slots ≤ 0 →
      find_duplicate db bd.class_id bd.client_email = none →
      uuid_hex.length = 32 →
      uuid_hex.data.all isLowerHexDigit = true →
      ∃ nb l1 l2,
        (create_booking db bd now uuid_hex new_id none).1 = .ok nb ∧
        (create_booking db bd now uuid_hex new_id none).2.bookings
          = db.bookings ++ [nb] ∧
        nb.booking_status = "confirmed" ∧
        nb.class_id = bd.class_id ∧
        nb.client_email = bd.client_email ∧
        nb.client_name = bd.client_name ∧
        validReference nb.booking_reference = true ∧
        db.classes = l1 ++ fc :: l2 ∧
        (create_booking db bd now uuid_hex new_id none).2.classes
          = l1 ++ { fc with available_slots := fc.available_slots - 1 } :: l2 := by
  intro db bd now uuid_hex new_id fc hfc hp hs hd hlen hhex
  obtain ⟨l1, l2, hsplit, _, hupd⟩ :=
    find?_updateFirst_decomp
      (fun c => c.id == bd.class_id && c.is_active)
      (fun c => { c with available_slots := c.available_slots - 1 })
      db.classes fc (get_class_by_id_ok hfc)
  refine ⟨newBooking bd now uuid_hex new_id, l1, l2, ?_, ?_, rfl, rfl, rfl, rfl,
    validReference_gen hlen hhex, hsplit, ?_⟩
  · rw [create_booking_success hfc hp hs hd]
  · rw [create_booking_success hfc hp hs hd]
  · rw [create_booking_success hfc hp hs hd]
    exact hupd

/-- Witness for C3: booking the open class on the concrete store succeeds
with all the stated effects. -/
theorem C3_successful_booking_witness :
    ∃ nb l1 l2,
      (create_booking dbOpen bdEx 5 hexEx 1 none).1 = .ok nb ∧
      (create_booking dbOpen bdEx 5 hexEx 1 none).2.bookings
        = dbOpen.bookings ++ [nb] ∧
      nb.booking_status = "confirmed" ∧
      nb.class_id = bdEx.class_id ∧
      nb.client_email = bdEx.client_email ∧
      nb.client_name = bdEx.client_name ∧
      validReference nb.booking_reference = true ∧
      dbOpen.classes = l1 ++ clsOpen :: l2 ∧
      (create_booking dbOpen bdEx 5 hexEx 1 none).2.classes
        = l1 ++ { clsOpen with available_slots := clsOpen.available_slots - 1 } :: l2 :=
  C3_successful_booking dbOpen bdEx 5 hexEx 1 clsOpen
    (by rfl) (by decide) (by decide) (by rfl) (by rfl) (by decide)

/-- Claim C5 (confirmed): in every reachable store every class satisfies
`0 ≤ available_slots ≤ max_slots`; every covered operation preserves the
invariant given it held before the call (`create_booking` decrements only
when `available_slots > 0` and never touches `max_slots`); and
`available_slots + booked_slots = max_slots` holds for every class, with
`booked_slots` the derived `max_slots - available_slots`. -/
theorem C5_capacity_invariant :
    (∀ db, Reachable db → ClassInv db) ∧
    (∀ db db', Step db db' → ClassInv db → ClassInv db') ∧
    (∀ c : FitnessClass, c.available_slots + c.booked_slots = c.max_slots) := by
  refine ⟨?_, ?_, ?_⟩
  · rintro db ⟨db0, ⟨_, hc0⟩, hsteps⟩
    induction hsteps with
    | refl => exact hc0
    | tail hpre st ih => exact step_preserves_classInv st ih
  · intro db db' st hc
    exact step_preserves_classInv st hc
  · intro c
    unfold FitnessClass.booked_slots
    omega

/-- Witness for C5: the seeded store is reachable and satisfies the
invariant, one concrete booking step preserves it, and the arithmetic
identity holds at the concrete class. -/
theorem C5_capacity_invariant_witness :
    ClassInv dbOpen ∧
    ClassInv (create_booking dbOpen bdEx 5 hexEx 1 none).2 ∧
    clsOpen.available_slots + clsOpen.booked_slots = clsOpen.max_slots :=
  ⟨C5_capacity_invariant.1 dbOpen
      ⟨dbOpen, ⟨rfl, by unfold ClassInv; decide⟩, Relation.ReflTransGen.refl⟩,
    C5_capacity_invariant.2.1 dbOpen (create_booking dbOpen bdEx 5 hexEx 1 none).2
      (Step.book dbOpen bdEx 5 hexEx 1 none) (by unfold ClassInv; decide),
    C5_capacity_invariant.2.2 clsOpen⟩
